import Mathlib

/-!
Verification of the fast-rl-rewards reward pipeline.

Shallow embedding of the Rust sources of the repository:
- src/code_extractor.rs and src/extraction.rs (identical extraction logic),
- src/test_wrapper.rs (assertion wrapping),
- src/sandbox.rs (post-spawn result parsing, with the process outcome
  made an explicit parameter),
- src/evaluator.rs (per-item and batch reward computation, with the
  sandbox made an explicit oracle parameter and instrumented so that the
  list of programs sent to the sandbox is part of the result).

Strings are modelled as lists of characters.  The Rust regular
expressions are hand-compiled to recursive functions following the
leftmost-first match semantics of the regex crate; the character classes
are modelled on their ASCII fragment (the source operates on program
text).  Rewards (Rust f64 values that are always exactly 0.0 or 1.0) are
modelled as rationals.
-/

abbrev Str := List Char

/-- Whitespace test used both for Rust str::trim and for the regex class
\s (ASCII fragment: space, tab, newline, carriage return, vertical tab,
form feed). -/
def isWs (c : Char) : Bool :=
  c == ' ' || c == '\t' || c == '\n' || c == '\r' || c == '\x0b' || c == '\x0c'

/-- Rust str::trim: drop leading and trailing whitespace. -/
def trimStr (s : Str) : Str :=
  ((s.dropWhile isWs).reverse.dropWhile isWs).reverse

/-- Rust str::contains for a string pattern: substring search. -/
def strContains : Str → Str → Bool
  | [], pat => pat.isEmpty
  | c :: r, pat => pat.isPrefixOf (c :: r) || strContains r pat

/-- Rust str::split(sep): split at every separator, keeping empty pieces,
always returning at least one piece. -/
def splitSep (sep : Char) : Str → List Str
  | [] => [[]]
  | c :: r =>
    if c = sep then [] :: splitSep sep r
    else
      match splitSep sep r with
      | [] => [[c]]
      | l :: ls => (c :: l) :: ls

/-- Rust Vec::join("\n"). -/
def joinNl : List Str → Str
  | [] => []
  | [l] => l
  | l :: l2 :: ls => l ++ '\n' :: joinNl (l2 :: ls)

/-- ASCII lower-casing, modelling the (?i) flag of the source regexes on
their ASCII pattern letters. -/
def lowerAscii (c : Char) : Char :=
  if 'A' ≤ c ∧ c ≤ 'Z' then Char.ofNat (c.toNat + 32) else c

/-- Case-insensitive prefix test. -/
def ciPrefix (pat s : Str) : Bool :=
  (pat.map lowerAscii).isPrefixOf (s.map lowerAscii)

/-!
Extraction (src/code_extractor.rs lines 52-69, src/extraction.rs lines
41-58; the two files contain the same function).
-/

/-- Interior of the ANSWER_PATTERN match, begun: everything up to the
first case-insensitive occurrence of the closing tag, none if the
closing tag never occurs.  Models the lazy group of
(?is)<answer>(.*?)</answer> once the opening tag has been found. -/
def closeSplit : Str → Option Str
  | [] => none
  | c :: r =>
    if ciPrefix (("</answer>").toList) (c :: r) then some []
    else (closeSplit r).map (fun i => c :: i)

/-- First capture of ANSWER_PATTERN = (?is)<answer>(.*?)</answer>:
leftmost occurrence of the opening tag that is followed by a closing
tag; the lazy interior runs to the first closing tag after it. -/
def answerCapture : Str → Option Str
  | [] => none
  | c :: r =>
    if ciPrefix (("<answer>").toList) (c :: r) then
      match closeSplit ((c :: r).drop 8) with
      | some i => some i
      | none => answerCapture r
    else answerCapture r

/-- Capture up to the first occurrence of a newline followed by a
closing fence, as required by the lazy group of CODE_BLOCK_PATTERN. -/
def cbClose : Str → Option Str
  | [] => none
  | c :: r =>
    if ("\n```").toList.isPrefixOf (c :: r) then some []
    else (cbClose r).map (fun i => c :: i)

/-- Indices of newline characters inside a string, largest first.  Used
to enumerate the candidate splits of the greedy \s*\n that follows the
opening fence of CODE_BLOCK_PATTERN, in the order a backtracking (or
leftmost-first) engine prefers them. -/
def nlIdxsDesc (w : Str) : List Nat :=
  ((List.range w.length).filter (fun k => w.get? k == some '\n')).reverse

/-- Match of \s*\n(.*?)\n``` directly after an opening ```python fence:
the greedy \s*\n takes the longest whitespace prefix ending in a
newline that still lets the rest match; the lazy group then runs to the
first closing fence. -/
def cbAfterFence (rest : Str) : Option Str :=
  (nlIdxsDesc (rest.takeWhile isWs)).findSome? (fun k => cbClose (rest.drop (k + 1)))

/-- First capture of CODE_BLOCK_PATTERN = (?s)```python\s*\n(.*?)\n```:
leftmost opening fence from which the whole pattern matches. -/
def codeBlockCapture : Str → Option Str
  | [] => none
  | c :: r =>
    if ("```python").toList.isPrefixOf (c :: r) then
      match cbAfterFence ((c :: r).drop 9) with
      | some cap => some cap
      | none => codeBlockCapture r
    else codeBlockCapture r

/-- Remainder after the greedy \s*\n: consumes the longest all-whitespace
prefix that ends with a newline (that is, up to and including the last
newline of the leading whitespace run); none when the leading whitespace
run contains no newline. -/
def afterWsNl (s : Str) : Option Str :=
  let w := s.takeWhile isWs
  if '\n' ∈ w then
    some ((w.reverse.takeWhile (fun c => c ≠ '\n')).reverse ++ s.drop w.length)
  else none

/-- MARKDOWN_START_PYTHON.replace(code, ""): remove one leading
```python fence (regex ^```python\s*\n, anchored at the start). -/
def stripStartPython (s : Str) : Str :=
  if ("```python").toList.isPrefixOf s then
    match afterWsNl (s.drop 9) with
    | some r => r
    | none => s
  else s

/-- MARKDOWN_START_PLAIN.replace(code, ""): remove one leading plain
``` fence (regex ^```\s*\n, anchored at the start). -/
def stripStartPlain (s : Str) : Str :=
  if ("```").toList.isPrefixOf s then
    match afterWsNl (s.drop 3) with
    | some r => r
    | none => s
  else s

/-- One position of the MARKDOWN_END regex \n```\s*$: a newline, a
closing fence, then only whitespace up to the end of the text. -/
def endFenceHere (s : Str) : Bool :=
  match s with
  | '\n' :: r => ("```").toList.isPrefixOf r && (r.drop 3).all isWs
  | _ => false

/-- MARKDOWN_END.replace(code, ""): remove the leftmost match of
\n```\s*$, which necessarily extends to the end of the text. -/
def stripEnd : Str → Str
  | [] => []
  | c :: r => if endFenceHere (c :: r) then [] else c :: stripEnd r

/-- extract_code_from_completion (src/code_extractor.rs lines 53-69):
answer tags first, then a python fenced block, then the whole trimmed
completion. -/
def extract_code_from_completion (completion : Str) : Str :=
  match answerCapture completion with
  | some interior =>
    stripEnd (stripStartPlain (stripStartPython (trimStr interior)))
  | none =>
    match codeBlockCapture completion with
    | some inner => trimStr inner
    | none => trimStr completion

/-!
Test wrapping (src/test_wrapper.rs lines 49-150).
-/

/-- One position of the unanchored ASSERT_PATTERN body assert\s+.+ :
the literal, at least one whitespace character, then (after possibly
more whitespace consumed by the greedy \s+) one character that is not a
newline. -/
def assertAfterWs : Str → Bool
  | [] => false
  | c :: r => if c = '\n' then assertAfterWs r else true

/-- Whether assert\s+.+ matches starting exactly here. -/
def assertHere (s : Str) : Bool :=
  ("assert").toList.isPrefixOf s &&
    (match s.drop 6 with
     | c :: r => isWs c && assertAfterWs r
     | [] => false)

/-- ASSERT_PATTERN.is_match(test_code): the pattern
(\s*)(assert\s+.+) matches somewhere in the text (the leading \s* can
be empty, so this is just an unanchored search for assert\s+.+). -/
def assertTextMatches : Str → Bool
  | [] => false
  | c :: r => assertHere (c :: r) || assertTextMatches r

/-- One position of the CHECK_DEF_PATTERN def\s+check\s*\( : since both
\s+ and \s* are followed by non-whitespace literals, each must consume
the entire whitespace run. -/
def checkDefHere (s : Str) : Bool :=
  ("def").toList.isPrefixOf s &&
    (let r := s.drop 3
     let run := r.takeWhile isWs
     !run.isEmpty &&
       ("check").toList.isPrefixOf (r.drop run.length) &&
       ("(").toList.isPrefixOf ((r.drop (run.length + 5)).dropWhile isWs))

/-- CHECK_DEF_PATTERN.is_match(line): unanchored search. -/
def checkDefMatch : Str → Bool
  | [] => false
  | c :: r => checkDefHere (c :: r) || checkDefMatch r

/-- ASSERT_PATTERN.captures(line) on one line of the split text (lines
contain no newline): the leftmost match starts at the first position
where assert\s+.+ matches, extended leftwards over the greedy captured
\s*; group 1 is that whitespace run, group 2 (assert\s+.+ with both
quantifiers greedy, and no newline present) is the rest of the line. -/
def lineAssertCapsGo : Str → Str → Option (Str × Str)
  | _, [] => none
  | revPre, c :: r =>
    if assertHere (c :: r) then some ((revPre.takeWhile isWs).reverse, c :: r)
    else lineAssertCapsGo (c :: revPre) r

def lineAssertCaps (line : Str) : Option (Str × Str) :=
  lineAssertCapsGo [] line

/-- Loop state of wrap_tests_for_complete_execution: whether the scan is
inside the check function, and the indentation of its def line. -/
structure WrapState where
  in_check : Bool
  check_indent : Str
deriving DecidableEq, Repr

/-- The five-line guarded replacement of one assertion
(src/test_wrapper.rs lines 97-101). -/
def guardedBlock (ind a : Str) : List Str :=
  [ind ++ ("try:").toList,
   ind ++ ("    ").toList ++ a,
   ind ++ ("    _results.append(True)").toList,
   ind ++ ("except:").toList,
   ind ++ ("    _results.append(False)").toList]

/-- Lines emitted for one input line, with the next state: the loop body
of src/test_wrapper.rs lines 76-132.  Branch order as in the source:
check-def detection, assertion wrapping (only inside the check
function), end-of-function detection, verbatim pass-through. -/
def wrapLine (st : WrapState) (line : Str) : List Str × WrapState :=
  if checkDefMatch line then
    let ind := line.takeWhile isWs
    ([line, ind ++ ("    _results = []").toList], ⟨true, ind⟩)
  else
    match lineAssertCaps line with
    | some (ind, a) =>
      if st.in_check then (guardedBlock ind a, st) else ([line], st)
    | none =>
      if st.in_check then
        let trimmed := trimStr line
        let ended := trimmed.isEmpty ||
          (!trimmed.isEmpty &&
            !(st.check_indent ++ [' ']).isPrefixOf line &&
            !(st.check_indent ++ ['\t']).isPrefixOf line)
        if ended then
          ([st.check_indent ++ ("    return _results").toList, []] ++
             (if trimmed.isEmpty then [] else [line]),
           ⟨false, st.check_indent⟩)
        else ([line], st)
      else ([line], st)

/-- All lines emitted by the loop. -/
def wrapFoldGo : WrapState → List Str → List Str
  | _, [] => []
  | st, l :: ls => (wrapLine st l).1 ++ wrapFoldGo (wrapLine st l).2 ls

/-- Loop state after processing all lines. -/
def wrapFinalState : WrapState → List Str → WrapState
  | st, [] => st
  | st, l :: ls => wrapFinalState (wrapLine st l).2 ls

/-- The reporting driver appended after the loop
(src/test_wrapper.rs lines 141-147). -/
def driver_lines (entry_point : Str) : List Str :=
  [("_test_results = check(").toList ++ entry_point ++ (")").toList,
   [],
   ("# Report test results").toList,
   ("_passed = sum(_test_results)").toList,
   ("_total = len(_test_results)").toList,
   ("print(f\"TESTS_PASSED:\x7b_passed\x7d/\x7b_total\x7d\")").toList,
   ("exit(0 if _passed == _total else 1)").toList]

/-- Initial loop state (in_check_function = false, empty indent). -/
def initWrapState : WrapState := ⟨false, []⟩

/-- wrap_tests_for_complete_execution (src/test_wrapper.rs lines
49-150): early return when ASSERT_PATTERN does not match, otherwise a
line-by-line rewrite, a closing return for a still-open check function,
and the reporting driver. -/
def wrap_tests_for_complete_execution (test_code entry_point : Str) : Str :=
  if !assertTextMatches test_code then test_code
  else
    let lines := splitSep '\n' test_code
    let wrapped := wrapFoldGo initWrapState lines
    let st := wrapFinalState initWrapState lines
    let closed := wrapped ++
      (if st.in_check then
         [st.check_indent ++ ("    return _results").toList, []]
       else [])
    joinNl (closed ++ driver_lines entry_point)

/-!
Sandboxed execution (src/sandbox.rs lines 53-144).  Everything after the
spawn is a pure function of the outcome of the child process (either
the wall-clock timeout fired, or the child finished with an exit code
and some captured stdout); that outcome is made an explicit parameter.
Hard errors of the setup phase (temp file creation and writing, spawn
failure, wait failure) are surfaced as Rust errors before this logic
runs and are outside this model.
-/

/-- Outcome of waiting on the sandboxed child: either the wall-clock
timeout elapsed, or the child finished with an exit code (Rust uses -1
when the process was killed by a signal) and captured stdout. -/
inductive RunOutcome where
  | timeout : RunOutcome
  | exited : Int → Str → RunOutcome
deriving DecidableEq

/-- Match of TESTS_PASSED:(\d+)/(\d+) starting exactly here: the
literal, then a maximal nonempty digit run, a slash, and a second
maximal nonempty digit run. -/
def markerAt (s : Str) : Option (Str × Str) :=
  if ("TESTS_PASSED:").toList.isPrefixOf s then
    let r := s.drop 13
    let d1 := r.takeWhile Char.isDigit
    if d1.isEmpty then none
    else
      match r.drop d1.length with
      | '/' :: r2 =>
        let d2 := r2.takeWhile Char.isDigit
        if d2.isEmpty then none else some (d1, d2)
      | _ => none
  else none

/-- TEST_RESULTS_PATTERN.captures(stdout): digit groups of the leftmost
match of TESTS_PASSED:(\d+)/(\d+). -/
def findMarker : Str → Option (Str × Str)
  | [] => none
  | c :: r =>
    match markerAt (c :: r) with
    | some v => some v
    | none => findMarker r

/-- Numeric value of a digit string. -/
def digitsToNat (s : Str) : Nat :=
  s.foldl (fun acc c => acc * 10 + (c.toNat - 48)) 0

/-- caps[i].parse::<i32>().unwrap_or(0) on a digit group: the value when
it fits an i32, and 0 when parsing fails by overflow. -/
def parse_i32 (s : Str) : Int :=
  if digitsToNat s ≤ 2147483647 then (digitsToNat s : Int) else 0

/-- Result computation of src/sandbox.rs lines 130-143 from the exit
code and the captured stdout. -/
def sandbox_result (exit_code : Int) (stdout : Str) : Bool × Int × Int :=
  let pt : Int × Int :=
    match findMarker stdout with
    | some (d1, d2) => (parse_i32 d1, parse_i32 d2)
    | none => (0, 0)
  (decide (exit_code = 0) && decide (pt.1 = pt.2) && decide (0 < pt.2), pt.1, pt.2)

/-- run_sandboxed_tests (src/sandbox.rs lines 53-144) as a function of
the program text and the child outcome: empty programs return
(false, 0, 0) without launching anything, a timeout returns
(false, 0, 0) after killing the child, and a finished child is scored
from its exit code and stdout. -/
def run_sandboxed_tests (code : Str) (outcome : RunOutcome) : Bool × Int × Int :=
  if (trimStr code).isEmpty then (false, 0, 0)
  else
    match outcome with
    | .timeout => (false, 0, 0)
    | .exited exit_code stdout => sandbox_result exit_code stdout

/-!
Reward evaluation (src/evaluator.rs lines 148-270).  The sandbox is an
oracle parameter (some result for Ok, none for Err, matching lines
210-227); each function additionally returns the list of programs it
sent to the sandbox, so that claims about the sandbox never being
invoked are statements about that list being empty.
-/

/-- The fixed typing prelude of src/evaluator.rs lines 162-165. -/
def typing_prelude : Str :=
  ("from typing import List, Optional, Dict, Set, Tuple, Any\n\n").toList

/-- Method-name extraction of src/evaluator.rs lines 185-189:
entry_point.split(dot).last().unwrap_or(entry_point) when the entry
point contains a dot, else the entry point itself. -/
def method_name (entry_point : Str) : Str :=
  if entry_point.contains '.' then (splitSep '.' entry_point).getLastD entry_point
  else entry_point

/-- Entry-point validation of src/evaluator.rs lines 183-201: skipped
for empty or "null" entry points; otherwise the code must contain
"def <method>", and additionally "class Solution" when the entry point
contains "Solution().". -/
def entry_point_ok (entry_point code_with_imports : Str) : Bool :=
  if entry_point = [] ∨ entry_point = ("null").toList then true
  else if !strContains code_with_imports
            (("def ").toList ++ method_name entry_point) then false
  else if strContains entry_point (("Solution().").toList) &&
          !strContains code_with_imports (("class Solution").toList) then false
  else true

/-- evaluate_single_execution (src/evaluator.rs lines 151-228).  The
first component is the reward, the second the list of programs sent to
the sandbox oracle. -/
def evaluate_single_execution (sbox : Str → Option (Bool × Int × Int))
    (completion test entry_point : Str) : ℚ × List Str :=
  if test = [] ∨ test = ("null").toList then (0, [])
  else
    let code := extract_code_from_completion completion
    if (trimStr code).isEmpty then (0, [])
    else
      let code_with_imports := typing_prelude ++ code
      if !entry_point_ok entry_point code_with_imports then (0, [])
      else
        let wrapped_tests := wrap_tests_for_complete_execution test entry_point
        let full_code := code_with_imports ++ ("\n\n").toList ++ wrapped_tests
        match sbox full_code with
        | some result => (if result.1 then 1 else 0, [full_code])
        | none => (0, [full_code])

/-- evaluate_execution_batch (src/evaluator.rs lines 245-270): none
models the panic of the length assertions; otherwise the zipped inputs
are mapped through evaluate_single_execution (rewards only; the Rust
function does not expose the sandbox traces). -/
def evaluate_execution_batch (sbox : Str → Option (Bool × Int × Int))
    (completions tests entry_points : List Str) : Option (List ℚ) :=
  if completions.length = tests.length ∧ completions.length = entry_points.length then
    some (((completions.zip tests).zip entry_points).map
      (fun p => (evaluate_single_execution sbox p.1.1 p.1.2 p.2).1))
  else none

/-!
Helper lemmas.
-/

theorem parse_i32_nonneg (s : Str) : 0 ≤ parse_i32 s := by
  unfold parse_i32; split <;> simp

theorem evaluate_single_reward_cases (sbox : Str → Option (Bool × Int × Int))
    (c t e : Str) :
    (evaluate_single_execution sbox c t e).1 = 0 ∨
    (evaluate_single_execution sbox c t e).1 = 1 := by
  unfold evaluate_single_execution
  split
  · simp
  dsimp only
  split
  · simp
  split
  · simp
  rcases hsb : sbox (typing_prelude ++
      (extract_code_from_completion c ++ '\n' :: '\n' ::
        wrap_tests_for_complete_execution t e)) with _ | result
  · simp [hsb]
  · by_cases hr : result.1 = true <;> simp [hsb, hr]

theorem splitSep_ne_nil (sep : Char) (s : Str) : splitSep sep s ≠ [] := by
  cases s with
  | nil => simp [splitSep]
  | cons c r =>
    unfold splitSep
    split
    · simp
    · split <;> simp

theorem wrapLine_fst_ne_nil (st : WrapState) (l : Str) : (wrapLine st l).1 ≠ [] := by
  unfold wrapLine
  split
  · simp
  · split
    · split <;> simp [guardedBlock]
    · split
      · dsimp only
        split
        · simp
        · simp
      · simp

theorem wrapFoldGo_cons_ne_nil (st : WrapState) (l : Str) (ls : List Str) :
    wrapFoldGo st (l :: ls) ≠ [] := by
  unfold wrapFoldGo
  simp [wrapLine_fst_ne_nil]

theorem joinNl_append (xs ys : List Str) (hx : xs ≠ []) (hy : ys ≠ []) :
    joinNl (xs ++ ys) = joinNl xs ++ '\n' :: joinNl ys := by
  induction xs with
  | nil => exact absurd rfl hx
  | cons l ls ih =>
    cases ls with
    | nil =>
      cases ys with
      | nil => exact absurd rfl hy
      | cons y ys2 => simp [joinNl]
    | cons l2 ls2 =>
      have step : joinNl ((l2 :: ls2) ++ ys) = joinNl (l2 :: ls2) ++ '\n' :: joinNl ys :=
        ih (by simp)
      show joinNl (l :: ((l2 :: ls2) ++ ys)) = (l ++ '\n' :: joinNl (l2 :: ls2)) ++ '\n' :: joinNl ys
      rw [show ((l2 :: ls2) ++ ys) = l2 :: (ls2 ++ ys) from rfl]
      show l ++ '\n' :: joinNl (l2 :: (ls2 ++ ys)) = _
      rw [show (l2 :: (ls2 ++ ys)) = (l2 :: ls2) ++ ys from rfl, step]
      simp

/-!
Claim theorems.
-/

/-- C7: for every item whose test string is empty or equal to "null",
the reward is 0.0 regardless of the completion and entry point, and no
sandbox program is run for that item. -/
theorem c7_empty_test (sbox : Str → Option (Bool × Int × Int))
    (completion entry_point test : Str)
    (h : test = [] ∨ test = ("null").toList) :
    evaluate_single_execution sbox completion test entry_point = (0, []) := by
  unfold evaluate_single_execution
  rw [if_pos h]

/-- C7 witness: a concrete empty test yields reward 0 with no sandbox
invocation. -/
theorem c7_witness :
    evaluate_single_execution (fun _ => some (true, 1, 1))
      (("def add(a, b): return a + b").toList) [] (("add").toList) = (0, []) :=
  c7_empty_test _ _ _ _ (Or.inl rfl)

/-- C6: for items with a real entry point, a missing "def <method>"
substring in the prelude-plus-extracted code, or a "Solution()."
entry point without a "class Solution" substring, forces reward 0.0
with no sandbox invocation. -/
theorem c6_entry_point_gate (sbox : Str → Option (Bool × Int × Int))
    (completion test entry_point : Str)
    (hep : ¬(entry_point = [] ∨ entry_point = ("null").toList))
    (hval : strContains (typing_prelude ++ extract_code_from_completion completion)
              (("def ").toList ++ method_name entry_point) = false
          ∨ (strContains entry_point (("Solution().").toList) = true ∧
             strContains (typing_prelude ++ extract_code_from_completion completion)
               (("class Solution").toList) = false)) :
    evaluate_single_execution sbox completion test entry_point = (0, []) := by
  have hok : entry_point_ok entry_point
      (typing_prelude ++ extract_code_from_completion completion) = false := by
    unfold entry_point_ok
    rw [if_neg hep]
    rcases hval with h1 | ⟨h2, h3⟩
    · rw [h1]; simp
    · cases hdef : strContains (typing_prelude ++ extract_code_from_completion completion)
          (("def ").toList ++ method_name entry_point)
      · simp
      · rw [h2, h3]; simp
  unfold evaluate_single_execution
  split
  · rfl
  dsimp only
  split
  · rfl
  rw [hok]
  simp

/-- C6 witness: a concrete completion without "def foo" is rejected
before the sandbox. -/
theorem c6_witness :
    evaluate_single_execution (fun _ => some (true, 1, 1))
      (("<answer>x = 1</answer>").toList) (("def check(c):\n    assert c()").toList)
      (("foo").toList) = (0, []) :=
  c6_entry_point_gate _ _ _ _ (by decide) (Or.inl (by decide))

/-- C1: on length-matched batches, evaluate_execution_batch succeeds and
returns exactly one reward per completion, each reward being 0 or 1. -/
theorem c1_batch_length_and_range (sbox : Str → Option (Bool × Int × Int))
    (completions tests entry_points : List Str)
    (h1 : completions.length = tests.length)
    (h2 : completions.length = entry_points.length) :
    ∃ v, evaluate_execution_batch sbox completions tests entry_points = some v ∧
      v.length = completions.length ∧ ∀ r ∈ v, r = 0 ∨ r = 1 := by
  unfold evaluate_execution_batch
  rw [if_pos ⟨h1, h2⟩]
  refine ⟨_, rfl, ?_, ?_⟩
  · simp [List.length_zip, ← h1, ← h2]
  · intro r hr
    simp only [List.mem_map] at hr
    obtain ⟨p, _, hp⟩ := hr
    rw [← hp]
    exact evaluate_single_reward_cases sbox p.1.1 p.1.2 p.2

/-- C1 witness: a concrete singleton batch. -/
theorem c1_witness :
    ∃ v, evaluate_execution_batch (fun _ => none)
        [("c").toList] [("t").toList] [("e").toList] = some v ∧
      v.length = 1 ∧ ∀ r ∈ v, r = 0 ∨ r = 1 :=
  c1_batch_length_and_range _ _ _ _ (by decide) (by decide)

/-- The per-line pattern of the C8 claim, ^\s*assert\s+.+ anchored at
the start of a line: the greedy \s* must consume the whole leading
whitespace run, after which assert\s+.+ must match.  Stated from the
claim wording; the source pattern has no anchor. -/
def anchoredAssertLine (l : Str) : Bool :=
  assertHere (l.dropWhile isWs)

/-- C8 counterexample: "myassert x" has no line matching the anchored
pattern ^\s*assert\s+.+, yet the wrapper does not return it unchanged
(the unanchored source pattern matches inside the word, so the driver
is appended). -/
theorem c8_counterexample :
    (∀ l ∈ splitSep '\n' (("myassert x").toList), anchoredAssertLine l = false) ∧
    wrap_tests_for_complete_execution (("myassert x").toList) [] ≠
      ("myassert x").toList := by
  constructor
  · decide
  · decide

/-- C8 amended: the wrapper is the identity exactly when the unanchored
source pattern (\s*)(assert\s+.+) does not match anywhere in the text;
a mid-line occurrence such as "myassert x" defeats the anchored reading
of the claim. -/
theorem c8_amended_identity (test_code entry_point : Str)
    (h : assertTextMatches test_code = false) :
    wrap_tests_for_complete_execution test_code entry_point = test_code := by
  unfold wrap_tests_for_complete_execution
  rw [h]
  simp

/-- C8 witness: a concrete assert-free text is returned unchanged. -/
theorem c8_witness :
    assertTextMatches (("x = 1\nprint(x)").toList) = false ∧
    wrap_tests_for_complete_execution (("x = 1\nprint(x)").toList) (("f").toList) =
      ("x = 1\nprint(x)").toList :=
  ⟨by decide, c8_amended_identity _ _ (by decide)⟩

/-- C5: extract_code_from_completion follows the first-match-wins
strategy: the interior of the first answer-tag region, trimmed, with at
most one leading python fence, at most one leading plain fence, and at
most one trailing fence stripped at the boundary; otherwise the trimmed
interior of the first python code block; otherwise the whole completion
trimmed.  The function is total by construction. -/
theorem c5_extraction_strategy (completion : Str) :
    (∀ interior, answerCapture completion = some interior →
      extract_code_from_completion completion =
        stripEnd (stripStartPlain (stripStartPython (trimStr interior)))) ∧
    (answerCapture completion = none →
      ∀ inner, codeBlockCapture completion = some inner →
        extract_code_from_completion completion = trimStr inner) ∧
    (answerCapture completion = none → codeBlockCapture completion = none →
      extract_code_from_completion completion = trimStr completion) := by
  refine ⟨?_, ?_, ?_⟩
  · intro interior ha
    unfold extract_code_from_completion
    rw [ha]
  · intro ha inner hb
    unfold extract_code_from_completion
    rw [ha, hb]
  · intro ha hb
    unfold extract_code_from_completion
    rw [ha, hb]

/-- C5 witness: the answer-tag branch on a concrete fenced completion. -/
theorem c5_witness :
    answerCapture (("<answer>```python\nprint(1)\n```</answer>").toList) =
      some (("```python\nprint(1)\n```").toList) ∧
    extract_code_from_completion (("<answer>```python\nprint(1)\n```</answer>").toList) =
      stripEnd (stripStartPlain (stripStartPython
        (trimStr (("```python\nprint(1)\n```").toList)))) :=
  ⟨by decide, (c5_extraction_strategy _).1 _ (by decide)⟩

theorem parse_i32_overflow (s : Str) (h : 2147483647 < digitsToNat s) :
    parse_i32 s = 0 := by
  unfold parse_i32
  rw [if_neg (not_le.mpr h)]

/-- C3 counterexample: a child that exits 0 after printing
TESTS_PASSED:5/3 produces the successful result (false, 5, 3), whose
passed component exceeds its total component, refuting the claimed
invariant 0 ≤ passed ≤ total. -/
theorem c3_counterexample :
    run_sandboxed_tests (("x").toList)
        (.exited 0 (("TESTS_PASSED:5/3").toList)) = (false, 5, 3) ∧
    ¬((run_sandboxed_tests (("x").toList)
        (.exited 0 (("TESTS_PASSED:5/3").toList))).2.1 ≤
      (run_sandboxed_tests (("x").toList)
        (.exited 0 (("TESTS_PASSED:5/3").toList))).2.2) := by
  constructor
  · decide
  · decide

/-- C3 amended: every successful result satisfies 0 ≤ passed and
0 ≤ total (but passed ≤ total can fail when the executed program prints
an adversarial marker); for a child that finished, all_passed holds iff
the exit code is 0, passed equals total, and total is positive;
total = 0 always yields all_passed = false; a timeout yields
(false, 0, 0). -/
theorem c3_amended_invariants (code : Str) (outcome : RunOutcome) :
    0 ≤ (run_sandboxed_tests code outcome).2.1 ∧
    0 ≤ (run_sandboxed_tests code outcome).2.2 ∧
    ((run_sandboxed_tests code outcome).2.2 = 0 →
      (run_sandboxed_tests code outcome).1 = false) ∧
    (∀ ec stdout, outcome = .exited ec stdout →
      ((run_sandboxed_tests code outcome).1 = true ↔
        ec = 0 ∧
          (run_sandboxed_tests code outcome).2.1 =
            (run_sandboxed_tests code outcome).2.2 ∧
          0 < (run_sandboxed_tests code outcome).2.2)) ∧
    (outcome = .timeout → run_sandboxed_tests code outcome = (false, 0, 0)) := by
  rcases outcome with _ | ⟨ec, stdout⟩
  · have hrun : run_sandboxed_tests code .timeout = (false, 0, 0) := by
      unfold run_sandboxed_tests; split <;> rfl
    rw [hrun]
    refine ⟨le_refl 0, le_refl 0, fun _ => rfl, ?_, fun _ => rfl⟩
    intro ec stdout h
    exact absurd h (by simp)
  · unfold run_sandboxed_tests
    split
    · refine ⟨le_refl 0, le_refl 0, fun _ => rfl, ?_, fun h => absurd h (by simp)⟩
      intro ec2 stdout2 h
      simp
    · unfold sandbox_result
      dsimp only
      rcases hm : findMarker stdout with _ | ⟨d1, d2⟩
      · refine ⟨le_refl 0, le_refl 0, fun _ => by simp, ?_, fun h => absurd h (by simp)⟩
        intro ec2 stdout2 h
        simp
      · refine ⟨parse_i32_nonneg d1, parse_i32_nonneg d2, ?_, ?_, fun h => absurd h (by simp)⟩
        · intro ht
          dsimp only at ht ⊢
          rw [ht]
          simp
        · intro ec2 stdout2 h
          injection h with h1 h2
          subst h1
          simp [and_assoc]

/-- C3 witness: the all_passed characterisation applied at a concrete
finished child with exit code 2. -/
theorem c3_witness :
    (run_sandboxed_tests (("y").toList)
        (.exited 2 (("TESTS_PASSED:4/4").toList))).1 = true ↔
      (2 : Int) = 0 ∧
        (run_sandboxed_tests (("y").toList)
            (.exited 2 (("TESTS_PASSED:4/4").toList))).2.1 =
          (run_sandboxed_tests (("y").toList)
              (.exited 2 (("TESTS_PASSED:4/4").toList))).2.2 ∧
        0 < (run_sandboxed_tests (("y").toList)
              (.exited 2 (("TESTS_PASSED:4/4").toList))).2.2 :=
  (c3_amended_invariants (("y").toList)
      (.exited 2 (("TESTS_PASSED:4/4").toList))).2.2.2.1
    2 (("TESTS_PASSED:4/4").toList) rfl

/-- C4 counterexample: a child that exits 1 after printing
TESTS_PASSED:2/3 is absorbed into the successful result (false, 2, 3),
not into (false, 0, 0) as the claim states for non-zero exits. -/
theorem c4_counterexample :
    run_sandboxed_tests (("z").toList)
        (.exited 1 (("TESTS_PASSED:2/3").toList)) = (false, 2, 3) ∧
    run_sandboxed_tests (("z").toList)
        (.exited 1 (("TESTS_PASSED:2/3").toList)) ≠
      ((false, 0, 0) : Bool × Int × Int) := by
  constructor
  · decide
  · decide

/-- C4 amended: none of the listed outcomes is an error; a timeout
yields (false, 0, 0); a marker-free stdout yields (false, 0, 0)
whatever the exit code; a non-zero exit (including the -1 used for
crashes) forces all_passed = false but keeps the counts parsed from
stdout; and when both digit groups of the marker fail to parse as i32,
the result is again (false, 0, 0) (a single failing group only zeroes
that group). -/
theorem c4_amended_absorption :
    (∀ code, run_sandboxed_tests code .timeout = (false, 0, 0)) ∧
    (∀ code ec stdout, findMarker stdout = none →
      run_sandboxed_tests code (.exited ec stdout) = (false, 0, 0)) ∧
    (∀ code ec stdout, ec ≠ 0 →
      (run_sandboxed_tests code (.exited ec stdout)).1 = false) ∧
    (∀ code ec stdout d1 d2, findMarker stdout = some (d1, d2) →
      2147483647 < digitsToNat d1 → 2147483647 < digitsToNat d2 →
      run_sandboxed_tests code (.exited ec stdout) = (false, 0, 0)) := by
  refine ⟨?_, ?_, ?_, ?_⟩
  · intro code
    unfold run_sandboxed_tests
    split <;> rfl
  · intro code ec stdout hm
    unfold run_sandboxed_tests
    split
    · rfl
    · unfold sandbox_result
      dsimp only
      rw [hm]
      simp
  · intro code ec stdout hec
    unfold run_sandboxed_tests
    split
    · rfl
    · unfold sandbox_result
      dsimp only
      rw [decide_eq_false hec]
      simp
  · intro code ec stdout d1 d2 hm h1 h2
    unfold run_sandboxed_tests
    split
    · rfl
    · unfold sandbox_result
      dsimp only
      rw [hm]
      dsimp only
      rw [parse_i32_overflow d1 h1, parse_i32_overflow d2 h2]
      simp

/-- C4 witness: concrete timeout-free absorptions. -/
theorem c4_witness :
    run_sandboxed_tests (("w").toList)
        (.exited 0 (("no results").toList)) = (false, 0, 0) ∧
    (run_sandboxed_tests (("w").toList)
        (.exited 5 (("TESTS_PASSED:1/2").toList))).1 = false :=
  ⟨c4_amended_absorption.2.1 (("w").toList) 0 (("no results").toList) (by decide),
   c4_amended_absorption.2.2.1 (("w").toList) 5 (("TESTS_PASSED:1/2").toList) (by decide)⟩

theorem findMarker_eq_of_first (i : Nat) (s d1 d2 : Str)
    (hbefore : ∀ j, j < i → markerAt (s.drop j) = none)
    (hat : markerAt (s.drop i) = some (d1, d2)) :
    findMarker s = some (d1, d2) := by
  induction i generalizing s with
  | zero =>
    rw [List.drop_zero] at hat
    cases s with
    | nil =>
      rw [show markerAt ([] : Str) = none from rfl] at hat
      simp at hat
    | cons c r => unfold findMarker; rw [hat]
  | succ i ih =>
    cases s with
    | nil =>
      rw [List.drop_nil, show markerAt ([] : Str) = none from rfl] at hat
      simp at hat
    | cons c r =>
      have h0 := hbefore 0 (Nat.succ_pos i)
      rw [List.drop_zero] at h0
      unfold findMarker
      rw [h0]
      exact ih r (fun j hj => by
          have := hbefore (j + 1) (Nat.succ_lt_succ hj)
          rwa [List.drop_succ_cons] at this)
        (by rwa [List.drop_succ_cons] at hat)

/-- C9: the counts come from the first occurrence of
TESTS_PASSED:(\d+)/(\d+) in the captured stdout, so a match printed by
the program before the driver report determines the parsed counts. -/
theorem c9_first_marker (code : Str) (ec : Int) (stdout : Str) (i : Nat) (d1 d2 : Str)
    (hbefore : ∀ j, j < i → markerAt (stdout.drop j) = none)
    (hat : markerAt (stdout.drop i) = some (d1, d2))
    (hcode : (trimStr code).isEmpty = false) :
    run_sandboxed_tests code (.exited ec stdout) =
      (decide (ec = 0) && decide (parse_i32 d1 = parse_i32 d2) &&
         decide (0 < parse_i32 d2),
       parse_i32 d1, parse_i32 d2) := by
  have hf := findMarker_eq_of_first i stdout d1 d2 hbefore hat
  unfold run_sandboxed_tests
  rw [hcode]
  unfold sandbox_result
  dsimp only
  rw [hf]
  simp

/-- C9 witness: stdout carrying a program-printed marker before the
driver marker is scored from the earlier, program-printed one. -/
theorem c9_witness :
    run_sandboxed_tests (("p").toList)
        (.exited 0 (("ab\nTESTS_PASSED:1/1\nTESTS_PASSED:2/3").toList)) = (true, 1, 1) := by
  rw [c9_first_marker (("p").toList) 0
      (("ab\nTESTS_PASSED:1/1\nTESTS_PASSED:2/3").toList) 3
      (("1").toList) (("1").toList) (by decide) (by decide) (by decide)]
  decide

/-- C2: the wrapper output is exactly the line-by-line emission of the
loop (followed by the closing return when the check function is still
open, and the driver); within that loop, a line scanned inside the
check function that matches the assertion pattern (and does not
re-match the check definition) is emitted as exactly the guarded
five-line try/except block, a line scanned outside the check function
that does not match the check definition is emitted verbatim and alone,
and a check-definition line is itself emitted unmodified (followed by
the inserted accumulator initialisation). -/
theorem c2_wrapper_invariant (test_code entry_point : Str)
    (h : assertTextMatches test_code = true) :
    (wrap_tests_for_complete_execution test_code entry_point =
      joinNl (wrapFoldGo initWrapState (splitSep '\n' test_code) ++
        (if (wrapFinalState initWrapState (splitSep '\n' test_code)).in_check then
           [(wrapFinalState initWrapState (splitSep '\n' test_code)).check_indent ++
              ("    return _results").toList, []]
         else []) ++ driver_lines entry_point)) ∧
    (∀ st line ind a, st.in_check = true → checkDefMatch line = false →
      lineAssertCaps line = some (ind, a) →
      (wrapLine st line).1 = guardedBlock ind a) ∧
    (∀ st line, st.in_check = false → checkDefMatch line = false →
      (wrapLine st line).1 = [line]) ∧
    (∀ st line, checkDefMatch line = true →
      (wrapLine st line).1 =
        [line, line.takeWhile isWs ++ ("    _results = []").toList]) := by
  refine ⟨?_, ?_, ?_, ?_⟩
  · unfold wrap_tests_for_complete_execution
    rw [h]
    simp only [Bool.not_true, Bool.false_eq_true, if_false, List.append_assoc]
  · intro st line ind a hst hcd hcaps
    unfold wrapLine
    rw [hcd, hcaps, hst]
    simp
  · intro st line hst hcd
    unfold wrapLine
    rw [hcd]
    cases hcaps : lineAssertCaps line
    · rw [hst]; simp
    · rename_i v
      rcases v with ⟨ind, a⟩
      rw [hst]
      simp
  · intro st line hcd
    unfold wrapLine
    rw [hcd]
    simp

/-- C2 witness: the guarded-block emission applied at a concrete
in-check assertion line. -/
theorem c2_witness :
    assertTextMatches (("def check(c):\n    assert c(1)").toList) = true ∧
    (wrapLine ⟨true, []⟩ (("    assert c(1)").toList)).1 =
      guardedBlock (("    ").toList) (("assert c(1)").toList) :=
  ⟨by decide,
   (c2_wrapper_invariant (("def check(c):\n    assert c(1)").toList) (("f").toList)
       (by decide)).2.1 ⟨true, []⟩ (("    assert c(1)").toList)
     (("    ").toList) (("assert c(1)").toList) rfl (by decide) (by decide)⟩

/-- C10: whenever the assertion pattern matches, the output ends with
the driver, whose first line is "_test_results = check(" followed by
the entry point verbatim and ")"; the entry point is interpolated with
no escaping, validation, or quoting. -/
theorem c10_driver_interpolation (test_code entry_point : Str)
    (h : assertTextMatches test_code = true) :
    ∃ p : Str, wrap_tests_for_complete_execution test_code entry_point =
      p ++ '\n' :: (("_test_results = check(").toList ++ entry_point ++
        (")\n\n# Report test results\n_passed = sum(_test_results)\n_total = len(_test_results)\nprint(f\"TESTS_PASSED:\x7b_passed\x7d/\x7b_total\x7d\")\nexit(0 if _passed == _total else 1)").toList) := by
  have hjd : joinNl (driver_lines entry_point) =
      ("_test_results = check(").toList ++ entry_point ++
        (")\n\n# Report test results\n_passed = sum(_test_results)\n_total = len(_test_results)\nprint(f\"TESTS_PASSED:\x7b_passed\x7d/\x7b_total\x7d\")\nexit(0 if _passed == _total else 1)").toList := by
    simp only [driver_lines, joinNl, List.append_assoc, List.cons_append, List.nil_append]
    rfl
  have hclosed : wrapFoldGo initWrapState (splitSep '\n' test_code) ++
      (if (wrapFinalState initWrapState (splitSep '\n' test_code)).in_check then
         [(wrapFinalState initWrapState (splitSep '\n' test_code)).check_indent ++
            ("    return _results").toList, []]
       else []) ≠ [] := by
    rcases hsp : splitSep '\n' test_code with _ | ⟨l, ls⟩
    · exact absurd hsp (splitSep_ne_nil '\n' test_code)
    · have := wrapFoldGo_cons_ne_nil initWrapState l ls
      simp [List.append_eq_nil, this]
  refine ⟨joinNl (wrapFoldGo initWrapState (splitSep '\n' test_code) ++
      (if (wrapFinalState initWrapState (splitSep '\n' test_code)).in_check then
         [(wrapFinalState initWrapState (splitSep '\n' test_code)).check_indent ++
            ("    return _results").toList, []]
       else [])), ?_⟩
  unfold wrap_tests_for_complete_execution
  rw [h]
  simp only [Bool.not_true, Bool.false_eq_true, if_false]
  rw [joinNl_append _ _ hclosed (by simp [driver_lines]), hjd]

/-- C10 witness: a concrete dotted entry point is interpolated verbatim
into the driver call. -/
theorem c10_witness :
    ∃ p : Str, wrap_tests_for_complete_execution
        (("def check(c):\n    assert c(2)").toList) (("Solution().f").toList) =
      p ++ '\n' :: (("_test_results = check(").toList ++ ("Solution().f").toList ++
        (")\n\n# Report test results\n_passed = sum(_test_results)\n_total = len(_test_results)\nprint(f\"TESTS_PASSED:\x7b_passed\x7d/\x7b_total\x7d\")\nexit(0 if _passed == _total else 1)").toList) :=
  c10_driver_interpolation (("def check(c):\n    assert c(2)").toList)
    (("Solution().f").toList) (by decide)
